import Mathlib

/-!
Shallow embedding of `docker-qgis/process_projectfile.py`.

The Python module validates a QGIS project file, localizes XML parse
errors, extracts project metadata and renders a thumbnail.  Pure string
and byte manipulations are embedded directly; the external collaborators
(the incremental XML parser, the QGIS engine, the Qt image save call and
the filesystem) are modelled as explicit parameters, as the spec treats
them as black-box capabilities.

Bytes are modelled as `Nat` (values 0–255), byte strings as `List Nat`,
Python `str` values as Lean `String`/`List Char`.  Python exceptions are
modelled with `Except`.
-/

/-- Python exceptions that the embedded code can raise. -/
inductive PyErr where
  | valueError
  | indexError
  | unicodeDecodeError
deriving DecidableEq, Repr

/-- Mirrors the `XmlErrorLocation` NamedTuple: 1-based line and column
parsed out of the parser error message.  Python ints are unbounded, so
the fields are `Int`. -/
structure XmlErrorLocation where
  line : Int
  column : Int
deriving DecidableEq, Repr

/-- ASCII lower-casing of one character.  Python `str.casefold` performs
full Unicode case folding; the embedded code only ever searches for the
ASCII needle `"invalid token"`, for which ASCII lowering coincides with
case folding. -/
def lowerChar (c : Char) : Char :=
  if 'A' ≤ c && c ≤ 'Z' then Char.ofNat (c.toNat + 32) else c

/-- Python `str.casefold` (ASCII fragment, see `lowerChar`). -/
def pyCasefold (cs : List Char) : List Char :=
  cs.map lowerChar

/-- Python whitespace as used by `str.strip()` (ASCII fragment: space,
tab, LF, CR, VT, FF; the Unicode space characters never appear in the
inputs the claims quantify over). -/
def isPySpace (c : Char) : Bool :=
  c == ' ' || c == Char.ofNat 9 || c == Char.ofNat 10 ||
    c == Char.ofNat 13 || c == Char.ofNat 11 || c == Char.ofNat 12

/-- Python `str.strip()` on a character list. -/
def stripChars (cs : List Char) : List Char :=
  ((cs.dropWhile isPySpace).reverse.dropWhile isPySpace).reverse

/-- Python `str.strip()`. -/
def pyStrip (s : String) : String :=
  ⟨stripChars s.data⟩

/-- Python substring containment `needle in hay`. -/
def containsSub (needle : List Char) : List Char → Bool
  | [] => needle.isEmpty
  | c :: rest => needle.isPrefixOf (c :: rest) || containsSub needle rest

/-- Python `str.split(sep)` for a one-character separator: splits on
every occurrence, keeping empty segments, and returns `[s]` when the
separator does not occur (so `"".split(sep) = [""]`). -/
def pySplit (sep : Char) (cs : List Char) : List (List Char) :=
  cs.foldr
    (fun c acc =>
      match acc with
      | g :: gs => if c == sep then [] :: g :: gs else (c :: g) :: gs
      | [] => [[c]])
    [[]]

/-- Splits at the first occurrence of `sep`; `none` when `sep` is absent
(used only by the spec-worded locator below). -/
def splitFirst (sep : Char) (cs : List Char) : Option (List Char × List Char) :=
  match pySplit sep cs with
  | [_] => none
  | g :: gs => some (g, List.intercalate [sep] gs)
  | [] => none

/-- Splits at the last occurrence of `sep`; `none` when `sep` is absent
(used only by the spec-worded locator below). -/
def splitLast (sep : Char) (cs : List Char) : Option (List Char × List Char) :=
  let after := cs.reverse.takeWhile (fun c => c != sep)
  if after.length = cs.length then none
  else some (cs.take (cs.length - after.length - 1), after.reverse)

/-- Decimal digit accumulator for Python `int(str)`: after the first
digit, accepts digits with single underscores between digits (Python
allows `"1_2"` but not `"1__2"`, `"_1"` or `"1_"`). -/
def digitsValAux : Nat → List Char → Option Nat
  | acc, [] => some acc
  | _, ['_'] => none
  | acc, '_' :: c :: rest =>
    if c.isDigit then digitsValAux (acc * 10 + (c.toNat - 48)) rest else none
  | acc, c :: rest =>
    if c.isDigit then digitsValAux (acc * 10 + (c.toNat - 48)) rest else none

/-- Nonempty decimal digit sequence, optionally with underscore
separators between digits. -/
def digitsVal : List Char → Option Nat
  | [] => none
  | c :: rest =>
    if c.isDigit then digitsValAux (c.toNat - 48) rest else none

/-- Python `int(str)` (ASCII-decimal fragment): strips whitespace,
accepts an optional sign followed by digits; `none` models `ValueError`.
Python additionally accepts non-ASCII decimal digits, which never occur
in the parser messages in scope. -/
def pyInt (cs : List Char) : Option Int :=
  match stripChars cs with
  | '+' :: rest => (digitsVal rest).map Int.ofNat
  | '-' :: rest => (digitsVal rest).map (fun n => -(Int.ofNat n))
  | rest => (digitsVal rest).map Int.ofNat

/-- Python `bytes.__getitem__` with an `Int` index: negative indices
count from the end, out-of-range indexing raises `IndexError`. -/
def pyIndex (l : List Nat) (i : Int) : Except PyErr Nat :=
  let n : Int := l.length
  let j := if i < 0 then i + n else i
  if 0 ≤ j ∧ j < n then .ok (l.getD j.toNat 0) else .error .indexError

/-- Python slice `l[:i]`.  A negative bound counts from the end and is
clamped to 0; a positive bound is clamped to the length. -/
def pySliceTo (l : List Nat) (i : Int) : List Nat :=
  let n : Int := l.length
  let j := if i < 0 then max (n + i) 0 else min i n
  l.take j.toNat

/-- One step of line splitting (see `pyLines`). -/
def pyLineStep (b : Nat) (acc : List (List Nat)) : List (List Nat) :=
  if b == 10 then [10] :: acc
  else
    match acc with
    | [] => [[b]]
    | l :: ls => (b :: l) :: ls

/-- Iterating a binary file handle in Python yields the byte lines split
after each `b"\n"`, each line keeping its terminator; a final chunk
without a newline is yielded as well, and an empty file yields no
lines. -/
def pyLines (bs : List Nat) : List (List Nat) :=
  bs.foldr pyLineStep []

/-- UTF-8 continuation byte. -/
def isCont (b : Nat) : Bool := 0x80 ≤ b && b ≤ 0xBF

/-- Decodes one UTF-8 scalar from leading byte `b` and the remaining
bytes, rejecting overlong forms, surrogates and values above
`0x10FFFF`, exactly as Python's strict `bytes.decode("utf-8")`. -/
def utf8DecodeOne (b : Nat) (rest : List Nat) : Option (Nat × List Nat) :=
  if b < 0x80 then some (b, rest)
  else if 0xC2 ≤ b && b ≤ 0xDF then
    match rest with
    | b1 :: t => if isCont b1 then some ((b - 0xC0) * 0x40 + (b1 - 0x80), t) else none
    | [] => none
  else if b == 0xE0 then
    match rest with
    | b1 :: b2 :: t =>
      if (0xA0 ≤ b1 && b1 ≤ 0xBF) && isCont b2 then
        some ((b - 0xE0) * 0x1000 + (b1 - 0x80) * 0x40 + (b2 - 0x80), t)
      else none
    | _ => none
  else if (0xE1 ≤ b && b ≤ 0xEC) || (0xEE ≤ b && b ≤ 0xEF) then
    match rest with
    | b1 :: b2 :: t =>
      if isCont b1 && isCont b2 then
        some ((b - 0xE0) * 0x1000 + (b1 - 0x80) * 0x40 + (b2 - 0x80), t)
      else none
    | _ => none
  else if b == 0xED then
    match rest with
    | b1 :: b2 :: t =>
      if (0x80 ≤ b1 && b1 ≤ 0x9F) && isCont b2 then
        some ((b - 0xE0) * 0x1000 + (b1 - 0x80) * 0x40 + (b2 - 0x80), t)
      else none
    | _ => none
  else if b == 0xF0 then
    match rest with
    | b1 :: b2 :: b3 :: t =>
      if (0x90 ≤ b1 && b1 ≤ 0xBF) && (isCont b2 && isCont b3) then
        some ((b - 0xF0) * 0x40000 + (b1 - 0x80) * 0x1000 + (b2 - 0x80) * 0x40 + (b3 - 0x80), t)
      else none
    | _ => none
  else if 0xF1 ≤ b && b ≤ 0xF3 then
    match rest with
    | b1 :: b2 :: b3 :: t =>
      if isCont b1 && (isCont b2 && isCont b3) then
        some ((b - 0xF0) * 0x40000 + (b1 - 0x80) * 0x1000 + (b2 - 0x80) * 0x40 + (b3 - 0x80), t)
      else none
    | _ => none
  else if b == 0xF4 then
    match rest with
    | b1 :: b2 :: b3 :: t =>
      if (0x80 ≤ b1 && b1 ≤ 0x8F) && (isCont b2 && isCont b3) then
        some ((b - 0xF0) * 0x40000 + (b1 - 0x80) * 0x1000 + (b2 - 0x80) * 0x40 + (b3 - 0x80), t)
      else none
    | _ => none
  else none

/-- Fuelled strict UTF-8 decoding loop; the fuel is instantiated with
the byte count, which bounds the number of decoded scalars. -/
def utf8DecodeFuel : Nat → List Nat → Option (List Char)
  | _, [] => some []
  | 0, _ :: _ => none
  | fuel + 1, b :: rest =>
    match utf8DecodeOne b rest with
    | some (cp, rest2) =>
      match utf8DecodeFuel fuel rest2 with
      | some cs => some (Char.ofNat cp :: cs)
      | none => none
    | none => none

/-- Python strict `bytes.decode("utf-8")`; `none` models
`UnicodeDecodeError`. -/
def utf8Decode (bs : List Nat) : Option String :=
  (utf8DecodeFuel bs.length bs).map (fun cs => ⟨cs⟩)

/-- Decimal digits of `n`, most significant first (fuelled). -/
def natDigs : Nat → Nat → List Char
  | 0, _ => []
  | fuel + 1, n =>
    if n < 10 then [Char.ofNat (48 + n)]
    else natDigs fuel (n / 10) ++ [Char.ofNat (48 + n % 10)]

/-- Python `str(n)` for a nonnegative integer. -/
def natToDecimal (n : Nat) : String :=
  ⟨natDigs (n + 1) n⟩

/-- Python `str(i)` for an integer. -/
def intToDecimal (i : Int) : String :=
  if i < 0 then "-" ++ natToDecimal i.natAbs else natToDecimal i.natAbs

/-- Replacement performed by Python `html.escape(s)` (with its default
quoting) on a single character. -/
def escapeChar (c : Char) : List Char :=
  if c == '&' then "&amp;".data
  else if c == '<' then "&lt;".data
  else if c == '>' then "&gt;".data
  else if c == Char.ofNat 34 then "&quot;".data
  else if c == Char.ofNat 39 then "&#x27;".data
  else [c]

/-- Python `html.escape(s)`.  The sequential `str.replace` chain of the
stdlib implementation equals this character-wise map because the
ampersand pass runs first. -/
def htmlEscape (s : String) : String :=
  ⟨(s.data.map escapeChar).flatten⟩

deriving instance DecidableEq for Except

/-- Embeds `get_location` (`process_projectfile.py`, lines 28–39).
Python's tuple unpacking of `split` results demands the exact number of
parts and raises `ValueError` otherwise, as does `int()` on a
non-numeric string. -/
def get_location (msg : String) : Except PyErr (Option XmlErrorLocation) :=
  if containsSub ("invalid token".data) (pyCasefold msg.data) then
    match pySplit ':' msg.data with
    | [_, details] =>
      match pySplit ',' details with
      | [lineClause, colClause] =>
        match pySplit ' ' (stripChars lineClause) with
        | [_, lineNumber] =>
          match pySplit ' ' (stripChars colClause) with
          | [_, colNumber] =>
            match pyInt lineNumber with
            | none => .error .valueError
            | some l =>
              match pyInt colNumber with
              | none => .error .valueError
              | some c => .ok (some ⟨l, c⟩)
          | _ => .error .valueError
        | _ => .error .valueError
      | _ => .error .valueError
    | _ => .error .valueError
  else .ok none

/-- Modelled from the spec (§4.1), for comparison with `get_location`:
the message "is split on the first colon into a label and a details
segment; the details segment is split on comma into a line-clause and a
column-clause; each clause is split on the last space to isolate a
trailing integer", and a malformed clause surfaces as a parsing
exception.  This is the spec's wording, not the source's behaviour. -/
def get_location_specAlg (msg : String) : Except PyErr (Option XmlErrorLocation) :=
  if containsSub ("invalid token".data) (pyCasefold msg.data) then
    match splitFirst ':' msg.data with
    | none => .error .valueError
    | some (_, details) =>
      match pySplit ',' details with
      | [lineClause, colClause] =>
        match splitLast ' ' lineClause, splitLast ' ' colClause with
        | some (_, lineNumber), some (_, colNumber) =>
          match pyInt lineNumber, pyInt colNumber with
          | some l, some c => .ok (some ⟨l, c⟩)
          | _, _ => .error .valueError
        | _, _ => .error .valueError
      | _ => .error .valueError
  else .ok none

/-- Body of the matching-line branch of `contextualize` (lines 55–63):
index the raw byte at the target column, decode the byte slice strictly
before the column, strip it, append `"?"` and HTML-escape.  The indexed
value is a Python `int`, so its `repr` is its decimal form. -/
def contextualizeLine (loc : XmlErrorLocation) (line : List Nat) :
    Except PyErr (String × String × String) :=
  match pyIndex line loc.column with
  | .error e => .error e
  | .ok faultyChar =>
    match utf8Decode (pySliceTo line (loc.column - 1)) with
    | none => .error .unicodeDecodeError
    | some s =>
      .ok
        ("Unable to parse this character: " ++ natToDecimal faultyChar,
         "It was replaced by '?' on line " ++ intToDecimal loc.line ++ " that starts with:",
         htmlEscape (pyStrip s ++ "?"))

/-- The `enumerate(fh, start=1)` scan of `contextualize`: the first line
whose 1-based position equals the target line is processed (raising any
error that processing raises); if no line matches, the loop falls
through and `None` is returned. -/
def scanLines (loc : XmlErrorLocation) : Nat → List (List Nat) →
    Except PyErr (Option (String × String × String))
  | _, [] => .ok none
  | pos, line :: rest =>
    if loc.line = (pos : Int) then (contextualizeLine loc line).map some
    else scanLines loc (pos + 1) rest

/-- Embeds `contextualize` (lines 42–65).  The stream argument is the
raw file content; `fh.seek(0)` followed by line iteration is
`pyLines content`.  An exception raised by `get_location` (or by the
line processing) propagates. -/
def contextualize (msg : String) (content : List Nat) :
    Except PyErr (Option (String × String × String)) :=
  match get_location msg with
  | .error e => .error e
  | .ok none => .ok none
  | .ok (some loc) => scanLines loc 1 (pyLines content)

/-- The final path component, Python `PurePath.name` (trailing slashes
are dropped first, like `pathlib` normalization). -/
def pathName (p : String) : String :=
  let cs := p.data.reverse.dropWhile (fun c => c == '/')
  ⟨(cs.takeWhile (fun c => c != '/')).reverse⟩

/-- Python `PurePath.suffix`: the extension of the final component from
its last dot (inclusive), empty when there is no dot, when the dot is
the first character of the name, or when the name ends in a dot. -/
def pathSuffix (p : String) : String :=
  let n := (pathName p).data
  let afterDot := n.reverse.takeWhile (fun c => c != '.')
  if afterDot.length = n.length then ""
  else if 0 < n.length - afterDot.length - 1 ∧ 0 < afterDot.length then
    ⟨'.' :: afterDot.reverse⟩
  else ""

/-- Structured exceptions raised by `check_valid_project_file`, plus the
propagation of an exception the `except` clause does not catch (the
clause catches only `ElementTree.ParseError`). -/
inductive ValidationError where
  | projectFileNotFound
  | invalidXmlFile (xmlError : String)
  | invalidFileExtension (extension : String)
  | uncaught (e : PyErr)
deriving DecidableEq, Repr

/-- External collaborators of the validator: the filesystem (path to
byte content, `none` when the path does not exist) and the incremental
XML parser (`none` on a well-formed document, `some msg` for the
`str()` of the first `ParseError`). -/
structure ValidationEnv where
  fs : String → Option (List Nat)
  parse : List Nat → Option String

/-- Embeds `check_valid_project_file` (lines 68–94): existence check
first, then for `.qgs` an incremental parse whose error is contextualized
over the same stream; `.qgz` is accepted without reading the content,
and any other extension raises `InvalidFileExtensionException` carrying
the suffix. -/
def check_valid_project_file (env : ValidationEnv) (p : String) :
    Except ValidationError Unit :=
  match env.fs p with
  | none => .error .projectFileNotFound
  | some content =>
    if pathSuffix p = ".qgs" then
      match env.parse content with
      | none => .ok ()
      | some errorMsg =>
        match contextualize errorMsg content with
        | .error e => .error (.uncaught e)
        | .ok xmlError =>
          .error (.invalidXmlFile
            (match xmlError with
             | some t => t.1 ++ t.2.1 ++ t.2.2
             | none => errorMsg))
    else if pathSuffix p = ".qgz" then .ok ()
    else .error (.invalidFileExtension (pathSuffix p))

/-- One hexadecimal digit, lowercase. -/
def hexDigit (n : Nat) : Char :=
  if n < 10 then Char.ofNat (48 + n) else Char.ofNat (87 + n)

/-- Two lowercase hex digits of a byte. -/
def hex2 (n : Nat) : String :=
  ⟨[hexDigit (n / 16 % 16), hexDigit (n % 16)]⟩

/-- `QColor(r, g, b).name()`: `"#rrggbb"` in lowercase hex; components
outside 0–255 make the color invalid, whose name is `"#000000"`. -/
def qcolorName (r g b : Int) : String :=
  if 0 ≤ r ∧ r ≤ 255 ∧ 0 ≤ g ∧ g ≤ 255 ∧ 0 ≤ b ∧ b ≤ 255 then
    "#" ++ hex2 r.toNat ++ hex2 g.toNat ++ hex2 b.toNat
  else "#000000"

/-- Model of the QGIS engine state visible to `extract_project_details`
and `generate_thumbnail`.  `numEntry`/`listEntry` are the project's
stored settings (`none` when the entry is absent — `readNumEntry` and
`readListEntry` then return their supplied default with a `false`
success flag).  `readFires` records whether the engine-level
`project.read` emits the `readProject` signal (it does exactly when the
read succeeds); `extentWkt` is the WKT polygon the canvas node yields
through the scratch `QgsMapSettings`; `layersData` is the ordered
mapping produced by the external `get_layers_data` capability. -/
structure QgisProject where
  numEntry : String → String → Option Int
  listEntry : String → String → Option (List String)
  crsAuthid : String
  title : String
  readFires : Bool
  extentWkt : String
  layersData : List (String × String)
  customLayerOrder : List String

/-- Values stored in the `details` dict (heterogeneous in Python). -/
inductive DetailValue where
  | str (v : String)
  | layers (m : List (String × String))
  | ids (v : List String)
  | strs (v : List String)
deriving DecidableEq, Repr

/-- Embeds `extract_project_details` (lines 109–161) as the `details`
dict in insertion order.  The `on_project_read` callback inserts
`background_color` and `extent` and runs only if the re-read triggered
on line 144 emits `readProject`; the `_success` flags of
`readNumEntry` and the found-flag of `readListEntry` are discarded, so
an absent entry silently yields the supplied default. -/
def extract_project_details (p : QgisProject) : List (String × DetailValue) :=
  let readPart :=
    if p.readFires then
      let r := (p.numEntry "Gui" "/CanvasColorRedPart").getD 255
      let g := (p.numEntry "Gui" "/CanvasColorGreenPart").getD 255
      let b := (p.numEntry "Gui" "/CanvasColorBluePart").getD 255
      [("background_color", DetailValue.str (qcolorName r g b)),
       ("extent", DetailValue.str p.extentWkt)]
    else []
  readPart ++
    [("crs", DetailValue.str p.crsAuthid),
     ("project_name", DetailValue.str p.title),
     ("layers_by_id", DetailValue.layers p.layersData),
     ("ordered_layer_ids", DetailValue.ids (p.layersData.map Prod.fst)),
     ("attachment_dirs",
      DetailValue.strs ((p.listEntry "QFieldSync" "attachmentDirs").getD ["DCIM"]))]

/-- Exception raised by `generate_thumbnail`. -/
inductive ThumbnailError where
  | failed (reason : String)
deriving DecidableEq, Repr

/-- Whether `img.save(str(thumbnail_filename))` returns true; the Qt
rendering pipeline is a black-box collaborator, so the save outcome is
an environment fact. -/
structure ThumbnailEnv where
  project : QgisProject
  saveSucceeds : Bool

/-- The layer list applied to the thumbnail's map settings (line 199):
the project's custom layer order, reversed. -/
def thumbnailLayers (env : ThumbnailEnv) : List String :=
  (env.project.customLayerOrder).reverse

/-- Embeds the outcome of `generate_thumbnail` (lines 164–219): the
render always runs (a zero-layer project just renders background) and
the only exception path is the failed save on lines 216–217. -/
def generate_thumbnail (env : ThumbnailEnv) : Except ThumbnailError Unit :=
  if env.saveSucceeds then .ok ()
  else .error (.failed "Failed to save.")

/-- The scan returns `None` when the 1-based counter never reaches the
target line. -/
theorem scanLines_out_of_range (loc : XmlErrorLocation) :
    ∀ (ls : List (List Nat)) (pos : Nat),
      (loc.line < (pos : Int) ∨ (pos : Int) + ls.length ≤ loc.line) →
      scanLines loc pos ls = .ok none := by
  intro ls
  induction ls with
  | nil => intro pos _; rfl
  | cons line rest ih =>
    intro pos h
    have hne : ¬ loc.line = (pos : Int) := by
      rcases h with h | h
      · omega
      · simp only [List.length_cons] at h
        push_cast at h
        omega
    simp only [scanLines, if_neg hne]
    apply ih
    rcases h with h | h
    · left; omega
    · right
      simp only [List.length_cons] at h
      push_cast at h ⊢
      omega

/-- The scan processes exactly the line whose 1-based position equals
the target line, when that position is within the stream. -/
theorem scanLines_hit (loc : XmlErrorLocation) :
    ∀ (ls : List (List Nat)) (pos : Nat),
      (pos : Int) ≤ loc.line → loc.line < (pos : Int) + ls.length →
      scanLines loc pos ls =
        (contextualizeLine loc (ls.getD (loc.line - pos).toNat [])).map some := by
  intro ls
  induction ls with
  | nil =>
    intro pos h1 h2
    simp only [List.length_nil] at h2
    omega
  | cons line rest ih =>
    intro pos h1 h2
    by_cases he : loc.line = (pos : Int)
    · have h0 : (loc.line - (pos : Int)).toNat = 0 := by omega
      simp only [scanLines, if_pos he, h0, List.getD_cons_zero]
    · have hlt : (pos : Int) < loc.line := lt_of_le_of_ne h1 (Ne.symm he)
      have hrec := ih (pos + 1) (by push_cast; omega)
        (by simp only [List.length_cons] at h2; push_cast at h2 ⊢; omega)
      simp only [scanLines, if_neg he, hrec]
      have hk : (loc.line - (pos : Int)).toNat =
          (loc.line - ((pos + 1 : Nat) : Int)).toNat + 1 := by push_cast; omega
      rw [hk, List.getD_cons_succ]

/-- C3 counterexample: the claim says ContextExtractor never raises, but
on the message `"invalid token"` (which contains the trigger substring
yet has no colon) the locator's tuple unpacking raises `ValueError`,
which `contextualize` propagates for any stream. -/
theorem contextualize_raises_cex :
    contextualize "invalid token" [] = .error .valueError := by decide

/-- C3 (amended): ContextExtractor returns `None` (raising nothing)
when the located line number exceeds the number of lines in the stream,
and likewise for every message lacking the case-insensitive substring
`"invalid token"`; but a message that contains the substring yet fails
to parse makes it propagate the locator's exception. -/
theorem contextualize_degrades_to_none :
    (∀ (msg : String) (content : List Nat) (L C : Int),
        get_location msg = .ok (some ⟨L, C⟩) →
        ((pyLines content).length : Int) < L →
        contextualize msg content = .ok none) ∧
    (∀ (msg : String) (content : List Nat),
        containsSub ("invalid token".data) (pyCasefold msg.data) = false →
        contextualize msg content = .ok none) := by
  constructor
  · intro msg content L C hloc hlen
    unfold contextualize
    rw [hloc]
    apply scanLines_out_of_range
    right
    push_cast
    omega
  · intro msg content h
    unfold contextualize
    have hg : get_location msg = .ok none := by
      unfold get_location
      rw [if_neg (by simp [h])]
    rw [hg]

theorem contextualize_degrades_to_none_wit :
    get_location "... invalid token: line 7, column 12" = .ok (some ⟨7, 12⟩) ∧
    contextualize "... invalid token: line 7, column 12" [] = .ok none :=
  ⟨by decide,
   contextualize_degrades_to_none.1 "... invalid token: line 7, column 12" [] 7 12
     (by decide) (by decide)⟩

/-- C4: on the synthetic message the locator returns line 7, column 12,
and any message without the case-insensitive substring
`"invalid token"` yields `None` without raising. -/
theorem get_location_roundtrip :
    get_location "... invalid token: line 7, column 12" = .ok (some ⟨7, 12⟩) ∧
    ∀ msg : String,
      containsSub ("invalid token".data) (pyCasefold msg.data) = false →
      get_location msg = .ok none := by
  constructor
  · decide
  · intro msg h
    unfold get_location
    rw [if_neg (by simp [h])]

theorem get_location_roundtrip_wit :
    containsSub ("invalid token".data)
        (pyCasefold "mismatched tag: line 3, column 2".data) = false ∧
    get_location "mismatched tag: line 3, column 2" = .ok none :=
  ⟨by decide, get_location_roundtrip.2 "mismatched tag: line 3, column 2" (by decide)⟩

/-- C7: a non-existent path fails with `ProjectFileNotFoundException`
before any extension dispatch or file access. -/
theorem check_valid_missing_path (env : ValidationEnv) (p : String)
    (h : env.fs p = none) :
    check_valid_project_file env p = .error .projectFileNotFound := by
  unfold check_valid_project_file
  rw [h]

theorem check_valid_missing_path_wit :
    check_valid_project_file ⟨fun _ => none, fun _ => none⟩ "missing.xyz" =
      .error .projectFileNotFound :=
  check_valid_missing_path ⟨fun _ => none, fun _ => none⟩ "missing.xyz" rfl

/-- C6: an existing path whose suffix is not `.qgs` is accepted exactly
when the suffix is `.qgz` (without consulting the content or the
parser), and any other suffix raises `InvalidFileExtensionException`
carrying exactly that suffix. -/
theorem check_valid_non_xml_extension (env : ValidationEnv) (p : String)
    (content : List Nat) (hfs : env.fs p = some content)
    (hqgs : ¬ pathSuffix p = ".qgs") :
    (pathSuffix p = ".qgz" → check_valid_project_file env p = .ok ()) ∧
    (¬ pathSuffix p = ".qgz" →
      check_valid_project_file env p =
        .error (.invalidFileExtension (pathSuffix p))) := by
  constructor
  · intro hqgz
    simp [check_valid_project_file, hfs, hqgs, hqgz]
  · intro hqgz
    simp [check_valid_project_file, hfs, hqgs, hqgz]

theorem check_valid_non_xml_extension_wit :
    check_valid_project_file ⟨fun _ => some [1, 2, 3], fun _ => some "boom"⟩
        "a.qgz" = .ok () ∧
    check_valid_project_file ⟨fun _ => some [1, 2, 3], fun _ => some "boom"⟩
        "b.txt" = .error (.invalidFileExtension ".txt") :=
  ⟨(check_valid_non_xml_extension ⟨fun _ => some [1, 2, 3], fun _ => some "boom"⟩
      "a.qgz" [1, 2, 3] rfl (by decide)).1 (by decide),
   (check_valid_non_xml_extension ⟨fun _ => some [1, 2, 3], fun _ => some "boom"⟩
      "b.txt" [1, 2, 3] rfl (by decide)).2 (by decide)⟩

/-- C9 counterexample: when the image save fails the raised reason is
the string `"Failed to save."` with a trailing period, not the claim's
exact string `"Failed to save"`. -/
theorem thumbnail_reason_cex :
    generate_thumbnail
        ⟨⟨fun _ _ => none, fun _ _ => none, "", "", false, "", [], []⟩, false⟩ =
      .error (.failed "Failed to save.") ∧
    ("Failed to save." : String) ≠ "Failed to save" :=
  ⟨rfl, by decide⟩

/-- C9 (amended): every render whose image save fails raises
`FailedThumbnailGenerationException` with reason exactly
`"Failed to save."`. -/
theorem thumbnail_save_failure_reason (env : ThumbnailEnv)
    (h : env.saveSucceeds = false) :
    generate_thumbnail env = .error (.failed "Failed to save.") := by
  unfold generate_thumbnail
  rw [h]
  rfl

theorem thumbnail_save_failure_reason_wit :
    generate_thumbnail
        ⟨⟨fun _ _ => none, fun _ _ => none, "EPSG:4326", "t", true, "", [], ["l1"]⟩,
         false⟩ = .error (.failed "Failed to save.") :=
  thumbnail_save_failure_reason
    ⟨⟨fun _ _ => none, fun _ _ => none, "EPSG:4326", "t", true, "", [], ["l1"]⟩,
     false⟩ rfl

/-- C5: for an existing `.qgs` file, a clean incremental parse is
accepted silently; a parse failure raises
`InvalidXmlFileException` whose payload is the concatenation of the
three context segments when ContextExtractor produced a context, and
the raw parser message when it produced none (the case where context
construction itself raises is settled under C3). -/
theorem check_valid_qgs_outcomes (env : ValidationEnv) (p : String)
    (content : List Nat) (hfs : env.fs p = some content)
    (hsuf : pathSuffix p = ".qgs") :
    (env.parse content = none → check_valid_project_file env p = .ok ()) ∧
    (∀ (m : String) (r : Option (String × String × String)),
        env.parse content = some m →
        contextualize m content = .ok r →
        check_valid_project_file env p =
          .error (.invalidXmlFile
            (match r with
             | some t => t.1 ++ t.2.1 ++ t.2.2
             | none => m))) := by
  constructor
  · intro hp
    simp [check_valid_project_file, hfs, hsuf, hp]
  · intro m r hp hc
    simp [check_valid_project_file, hfs, hsuf, hp, hc]

theorem check_valid_qgs_outcomes_wit :
    check_valid_project_file ⟨fun _ => some [60], fun _ => none⟩ "p.qgs" =
      .ok () ∧
    check_valid_project_file
        ⟨fun _ => some [60], fun _ => some "no element found: line 1, column 0"⟩
        "p.qgs" =
      .error (.invalidXmlFile "no element found: line 1, column 0") ∧
    check_valid_project_file
        ⟨fun _ => some [97, 98, 255, 10],
         fun _ => some "not well-formed (invalid token): line 1, column 2"⟩
        "p.qgs" =
      .error (.invalidXmlFile
        ("Unable to parse this character: 255" ++
         "It was replaced by '?' on line 1 that starts with:" ++ "a?")) :=
  ⟨(check_valid_qgs_outcomes ⟨fun _ => some [60], fun _ => none⟩ "p.qgs" [60]
      rfl (by decide)).1 rfl,
   (check_valid_qgs_outcomes
      ⟨fun _ => some [60], fun _ => some "no element found: line 1, column 0"⟩
      "p.qgs" [60] rfl (by decide)).2
     "no element found: line 1, column 0" none rfl (by decide),
   (check_valid_qgs_outcomes
      ⟨fun _ => some [97, 98, 255, 10],
       fun _ => some "not well-formed (invalid token): line 1, column 2"⟩
      "p.qgs" [97, 98, 255, 10] rfl (by decide)).2
     "not well-formed (invalid token): line 1, column 2"
     (some ("Unable to parse this character: 255",
            "It was replaced by '?' on line 1 that starts with:", "a?"))
     rfl (by decide)⟩

/-- C10: when the engine-level re-read fails (so the `readProject`
callback never fires), `extract_project_details` still returns
normally — the unchecked boolean result of `project.read` is
discarded — and the returned record then lacks the `background_color`
and `extent` fields entirely. -/
theorem extract_details_read_ignored (p : QgisProject)
    (h : p.readFires = false) :
    (extract_project_details p).map Prod.fst =
        ["crs", "project_name", "layers_by_id", "ordered_layer_ids",
         "attachment_dirs"] ∧
    List.lookup "background_color" (extract_project_details p) = none ∧
    List.lookup "extent" (extract_project_details p) = none := by
  refine ⟨?_, ?_, ?_⟩ <;> simp [extract_project_details, h, List.lookup]

theorem extract_details_read_ignored_wit :
    (extract_project_details
        ⟨fun _ _ => none, fun _ _ => none, "EPSG:4326", "T", false, "",
         [("l1", "d1")], []⟩).map Prod.fst =
        ["crs", "project_name", "layers_by_id", "ordered_layer_ids",
         "attachment_dirs"] ∧
    List.lookup "background_color"
        (extract_project_details
          ⟨fun _ _ => none, fun _ _ => none, "EPSG:4326", "T", false, "",
           [("l1", "d1")], []⟩) = none ∧
    List.lookup "extent"
        (extract_project_details
          ⟨fun _ _ => none, fun _ _ => none, "EPSG:4326", "T", false, "",
           [("l1", "d1")], []⟩) = none :=
  extract_details_read_ignored
    ⟨fun _ _ => none, fun _ _ => none, "EPSG:4326", "T", false, "",
     [("l1", "d1")], []⟩ rfl

/-- C8: when the triggered re-read fires, the record's field names are
exactly `crs`, `project_name`, `background_color`, `extent`,
`layers_by_id`, `ordered_layer_ids`, `attachment_dirs`;
`ordered_layer_ids` is the key sequence of `layers_by_id` in insertion
order; an absent attachment-dirs entry defaults to `["DCIM"]`; and
absent red/green/blue entries default to 255 each, giving background
color `"#ffffff"`. -/
theorem extract_details_fields (p : QgisProject)
    (hread : p.readFires = true)
    (hdirs : p.listEntry "QFieldSync" "attachmentDirs" = none)
    (hr : p.numEntry "Gui" "/CanvasColorRedPart" = none)
    (hg : p.numEntry "Gui" "/CanvasColorGreenPart" = none)
    (hb : p.numEntry "Gui" "/CanvasColorBluePart" = none) :
    ((extract_project_details p).map Prod.fst).Perm
        ["crs", "project_name", "background_color", "extent",
         "layers_by_id", "ordered_layer_ids", "attachment_dirs"] ∧
    List.lookup "ordered_layer_ids" (extract_project_details p) =
        some (DetailValue.ids (p.layersData.map Prod.fst)) ∧
    List.lookup "attachment_dirs" (extract_project_details p) =
        some (DetailValue.strs ["DCIM"]) ∧
    List.lookup "background_color" (extract_project_details p) =
        some (DetailValue.str "#ffffff") := by
  refine ⟨?_, ?_, ?_, ?_⟩
  · have hmap : (extract_project_details p).map Prod.fst =
        ["background_color", "extent", "crs", "project_name",
         "layers_by_id", "ordered_layer_ids", "attachment_dirs"] := by
      simp [extract_project_details, hread]
    rw [hmap]
    decide
  · simp [extract_project_details, hread, List.lookup]
  · simp [extract_project_details, hread, hdirs, List.lookup]
  · simp [extract_project_details, hread, hr, hg, hb, List.lookup]
    decide

theorem extract_details_fields_wit :
    ((extract_project_details
        ⟨fun _ _ => none, fun _ _ => none, "EPSG:4326", "T", true, "wkt",
         [("l1", "d1"), ("l2", "d2")], []⟩).map Prod.fst).Perm
        ["crs", "project_name", "background_color", "extent",
         "layers_by_id", "ordered_layer_ids", "attachment_dirs"] ∧
    List.lookup "ordered_layer_ids"
        (extract_project_details
          ⟨fun _ _ => none, fun _ _ => none, "EPSG:4326", "T", true, "wkt",
           [("l1", "d1"), ("l2", "d2")], []⟩) =
      some (DetailValue.ids ["l1", "l2"]) ∧
    List.lookup "attachment_dirs"
        (extract_project_details
          ⟨fun _ _ => none, fun _ _ => none, "EPSG:4326", "T", true, "wkt",
           [("l1", "d1"), ("l2", "d2")], []⟩) =
      some (DetailValue.strs ["DCIM"]) ∧
    List.lookup "background_color"
        (extract_project_details
          ⟨fun _ _ => none, fun _ _ => none, "EPSG:4326", "T", true, "wkt",
           [("l1", "d1"), ("l2", "d2")], []⟩) =
      some (DetailValue.str "#ffffff") :=
  extract_details_fields
    ⟨fun _ _ => none, fun _ _ => none, "EPSG:4326", "T", true, "wkt",
     [("l1", "d1"), ("l2", "d2")], []⟩ rfl rfl rfl rfl rfl

/-- C2 counterexample: the claim's algorithm (split on the first colon,
isolate the trailing integer of each clause) accepts
`"invalid token: line  7, column 12"` (double space) and returns line 7,
column 12, but `get_location` unpacks `split(" ")` into exactly two
parts and therefore raises `ValueError` on this message. -/
theorem get_location_first_colon_cex :
    get_location_specAlg "invalid token: line  7, column 12" =
      .ok (some ⟨7, 12⟩) ∧
    get_location "invalid token: line  7, column 12" =
      .error .valueError :=
  ⟨by decide, by decide⟩

/-- C2 (amended): for every message containing the case-insensitive
substring `"invalid token"`, the locator never returns "not found";
it returns a location exactly when the message splits on colon into
exactly two parts, the details split on comma into exactly two clauses,
each whitespace-stripped clause splits on a single space into exactly
two tokens, and the trailing tokens parse as decimal integers — those
integers being the returned line and column; any other shape raises a
parsing exception. -/
theorem get_location_exact_shape (msg : String)
    (h : containsSub ("invalid token".data) (pyCasefold msg.data) = true) :
    get_location msg ≠ .ok none ∧
    ∀ L C : Int,
      (get_location msg = .ok (some ⟨L, C⟩) ↔
        ∃ label details lineClause colClause w1 n1 w2 n2,
          pySplit ':' msg.data = [label, details] ∧
          pySplit ',' details = [lineClause, colClause] ∧
          pySplit ' ' (stripChars lineClause) = [w1, n1] ∧
          pySplit ' ' (stripChars colClause) = [w2, n2] ∧
          pyInt n1 = some L ∧ pyInt n2 = some C) := by
  unfold get_location
  rw [if_pos h]
  constructor
  · intro hcontra
    split at hcontra <;> try exact Except.noConfusion hcontra
    · split at hcontra <;> try exact Except.noConfusion hcontra
      · split at hcontra <;> try exact Except.noConfusion hcontra
        · split at hcontra <;> try exact Except.noConfusion hcontra
          · split at hcontra <;> try exact Except.noConfusion hcontra
            · split at hcontra <;> try exact Except.noConfusion hcontra
              · simp at hcontra
  · intro L C
    constructor
    · intro hg
      split at hg <;> try exact Except.noConfusion hg
      rename_i label details e1
      split at hg <;> try exact Except.noConfusion hg
      rename_i lineClause colClause e2
      split at hg <;> try exact Except.noConfusion hg
      rename_i w1 n1 e3
      split at hg <;> try exact Except.noConfusion hg
      rename_i w2 n2 e4
      split at hg <;> try exact Except.noConfusion hg
      rename_i l e5
      split at hg <;> try exact Except.noConfusion hg
      rename_i c e6
      simp only [Except.ok.injEq, Option.some.injEq, XmlErrorLocation.mk.injEq] at hg
      exact ⟨label, details, lineClause, colClause, w1, n1, w2, n2, e1, e2, e3, e4,
        by rw [e5, hg.1], by rw [e6, hg.2]⟩
    · rintro ⟨label, details, lineClause, colClause, w1, n1, w2, n2,
        e1, e2, e3, e4, e5, e6⟩
      simp only [e1, e2, e3, e4, e5, e6]

theorem get_location_exact_shape_wit :
    containsSub ("invalid token".data)
        (pyCasefold "... invalid token: line 7, column 12".data) = true ∧
    get_location "... invalid token: line 7, column 12" ≠ .ok none :=
  ⟨by decide,
   (get_location_exact_shape "... invalid token: line 7, column 12" (by decide)).1⟩

/-- C1: when the locator finds 1-based line `L` and column `C` and the
stream has at least `L` lines, `contextualize` returns a three-part
context: the description reports the raw byte obtained by indexing
line `L` at index `C` (as the decimal `repr` of a Python byte value),
and the snippet is the HTML-escape of the UTF-8 decoding of the byte
slice of line `L` strictly before column `C` (indices `0 … C-2`),
whitespace-trimmed, with a single `?` appended.  The hypotheses that
the indexed byte exists and the prefix decodes are the claim's own
presuppositions (the spec assumes the prefix is well-formed). -/
theorem contextualize_reports_faulty_byte (msg : String) (content : List Nat)
    (L C : Int) (line : List Nat) (s : String)
    (hloc : get_location msg = .ok (some ⟨L, C⟩))
    (hL : 1 ≤ L) (hlen : L ≤ ((pyLines content).length : Int))
    (hline : (pyLines content).getD (L - 1).toNat [] = line)
    (hC : 1 ≤ C) (hCr : C < (line.length : Int))
    (hdec : utf8Decode (line.take (C - 1).toNat) = some s) :
    contextualize msg content =
      .ok (some
        ("Unable to parse this character: " ++ natToDecimal (line.getD C.toNat 0),
         "It was replaced by '?' on line " ++ intToDecimal L ++ " that starts with:",
         htmlEscape (pyStrip s ++ "?"))) := by
  simp only [contextualize, hloc]
  rw [scanLines_hit ⟨L, C⟩ (pyLines content) 1 (by exact_mod_cast hL)
    (by push_cast; omega)]
  have harg : ((pyLines content).getD
      ((⟨L, C⟩ : XmlErrorLocation).line - ((1 : Nat) : Int)).toNat []) = line := by
    rw [← hline]
    norm_num
  rw [harg]
  have hidx : pyIndex line C = .ok (line.getD C.toNat 0) := by
    have hC0 : ¬ C < 0 := by omega
    simp only [pyIndex, if_neg hC0]
    rw [if_pos ⟨by omega, by omega⟩]
  have hslice : pySliceTo line (C - 1) = line.take (C - 1).toNat := by
    have hC0 : ¬ C - 1 < 0 := by omega
    simp only [pySliceTo, if_neg hC0]
    rw [min_eq_left (by omega)]
  unfold contextualizeLine
  rw [hidx, hslice, hdec]
  rfl

theorem contextualize_reports_faulty_byte_wit :
    get_location "not well-formed (invalid token): line 2, column 3" =
      .ok (some ⟨2, 3⟩) ∧
    contextualize "not well-formed (invalid token): line 2, column 3"
        [120, 10, 32, 97, 98, 255, 10] =
      .ok (some
        ("Unable to parse this character: 255",
         "It was replaced by '?' on line 2 that starts with:",
         "a?")) :=
  ⟨by decide,
   contextualize_reports_faulty_byte
     "not well-formed (invalid token): line 2, column 3"
     [120, 10, 32, 97, 98, 255, 10] 2 3 [32, 97, 98, 255, 10] " a"
     (by decide) (by decide) (by decide) (by decide) (by decide) (by decide)
     (by decide)⟩
